import Mathlib

/-!
Verification of the stereocenter-perception specification of this
cheminformatics test harness (rdkit/Chem/UnitTestDescriptors.py) against
the code.  The test harness itself (baseline selection, MQN regression
target arrays, expected chiral-center counts, the molecular-formula
table) is embedded directly from the source file.  The perception core
(`findStereocenters`), the formula builder (`CalcMolFormula`) and the
line-notation parser are not part of the source tree; they are modelled
from the specification, as indicated in each doc comment.
-/

/-- Modelled from the spec (§3 data model): an existing discrete stereo
mark on an atom, one of none / parity-A / parity-B, set only if the
input encoded explicit chirality for that atom. -/
inductive StereoMark where
  | noMark
  | parityA
  | parityB
deriving DecidableEq, Repr

/-- Modelled from the spec (§3 data model): bond order, used in the
ranking duplication rules (single/double/aromatic/etc.). -/
inductive BondOrder where
  | single
  | double
  | triple
  | aromatic
deriving DecidableEq, Repr

/-- Modelled from the spec (§3 data model): an atom of the molecular
graph: element (atomic number), isotope, charge, implicit-hydrogen
count, and an optional existing stereo mark.  The graph itself is built
by the external line-notation parser, which is out of scope (§1). -/
structure Atom where
  elem : Nat
  isotope : Nat
  charge : Int
  implicitH : Nat
  mark : StereoMark
deriving DecidableEq, Repr

instance : Inhabited Atom := ⟨⟨0, 0, 0, 0, .noMark⟩⟩

/-- Modelled from the spec (§3 data model): a bond: endpoint atom pair,
bond order, and a ring-membership flag (computed by the external graph
constructor). -/
structure Bond where
  a : Nat
  b : Nat
  order : BondOrder
  inRing : Bool
deriving DecidableEq, Repr

/-- Modelled from the spec (§3 data model): the molecular graph, owned
by the caller and read-only to the perception core. -/
structure Mol where
  atoms : List Atom
  bonds : List Bond
deriving DecidableEq, Repr

/-- Ordered neighbor list of atom `i`: the other endpoint of every
incident bond, in bond-list order, with the bond order (spec §6,
`Atom.neighbors()`). -/
def neighborsOf (m : Mol) (i : Nat) : List (Nat × BondOrder) :=
  m.bonds.filterMap (fun b =>
    if b.a = i then some (b.b, b.order)
    else if b.b = i then some (b.a, b.order)
    else none)

/-- Whether atom `i` is part of a ring: some incident bond carries the
ring-membership flag (spec §3). -/
def atomInRing (m : Mol) (i : Nat) : Bool :=
  m.bonds.any (fun b => (b.a = i || b.b = i) && b.inRing)

/-- Number of real (non-hydrogen) neighbors of atom `i` (spec §4.3). -/
def heavyDegree (m : Mol) (i : Nat) : Nat :=
  ((neighborsOf m i).filter
    (fun p => 1 < (m.atoms.getD p.1 default).elem)).length

/-- Modelled from the spec (§4.1): a node of the hierarchical digraph
used by the Priority Ranking Engine.  `phantom` is the minimal-priority
terminal node used for cycle closures, implicit hydrogens and branch
padding; a real node carries atomic number, isotope and its ranked
children. -/
inductive BTree where
  | phantom
  | node (elem : Nat) (isotope : Nat) (children : List BTree)

/-- Pair the remaining right-hand children with phantoms on the left
(spec §4.1: a missing child counts as a phantom). -/
def padLeft : List BTree → List (BTree × BTree)
  | [] => []
  | y :: ys => (.phantom, y) :: padLeft ys

/-- Pair up two ranked child lists position by position; a missing
child counts as a phantom (spec §4.1). -/
def pairUp : List BTree → List BTree → List (BTree × BTree)
  | [], ys => padLeft ys
  | x :: xs, [] => (x, .phantom) :: pairUp xs []
  | x :: xs, y :: ys => (x, y) :: pairUp xs ys

/-- Modelled from the spec (§4.1): the CIP-like branch comparator as a
depth-first walk over a worklist of node pairs: at each node, atomic
number decides first (higher wins), then isotope, then the ranked
child lists, compared pairwise ahead of the rest of the worklist (the
deepest-first point of difference decides, exactly the recursive
lexicographic rule).  A phantom has minimal priority.  `fuel` only
bounds the recursion: each step consumes at least one node of the
compared trees, so `sizeOf` the two trees is always enough. -/
def cmpStack : Nat → List (BTree × BTree) → Ordering
  | 0, _ => .eq
  | _ + 1, [] => .eq
  | fuel + 1, (t1, t2) :: rest =>
    match t1, t2 with
    | .phantom, .phantom => cmpStack fuel rest
    | .phantom, .node _ _ _ => .lt
    | .node _ _ _, .phantom => .gt
    | .node e1 i1 c1, .node e2 i2 c2 =>
      (compare e1 e2).then ((compare i1 i2).then
        (cmpStack fuel (pairUp c1 c2 ++ rest)))

/-- Modelled from the spec (§4.1): compare two branches of the
hierarchical digraph.  A branch is carried together with its node
count, which serves as the comparison's recursion bound: every
comparison step consumes at least one node of the two branches, so the
sum of the two counts always suffices. -/
def cmpTree (x y : BTree × Nat) : Ordering :=
  cmpStack (x.2 + y.2) [(x.1, y.1)]

/-- Insert into a descending-sorted list of branches. -/
def insertDesc (x : BTree × Nat) :
    List (BTree × Nat) → List (BTree × Nat)
  | [] => [x]
  | y :: ys => if cmpTree x y = .lt then y :: insertDesc x ys else x :: y :: ys

/-- Sort branches in descending priority order (spec §4.1: output is a
ranking of the branches). -/
def sortDesc : List (BTree × Nat) → List (BTree × Nat)
  | [] => []
  | x :: xs => insertDesc x (sortDesc xs)

/-- Modelled from the spec (§4.1): how many duplicated virtual
neighbors a bond order inserts (a double bond duplicates the partner
once, a triple bond twice). -/
def dupCount : BondOrder → Nat
  | .single => 0
  | .double => 1
  | .triple => 2
  | .aromatic => 0

/-- Modelled from the spec (§4.1): the duplicated virtual neighbor for
a multiple bond to atom `j`: a copy of the partner atom whose only
neighbor is a phantom (two nodes). -/
def dupNode (m : Mol) (j : Nat) : BTree × Nat :=
  let a := m.atoms.getD j default
  (.node a.elem a.isotope [.phantom], 2)

/-- Modelled from the spec (§4.1): build the hierarchical-digraph
branch rooted at atom `i` (together with its node count), with
`visited` the atoms already on this path; revisiting an on-path atom
yields a terminal phantom.  `fuel` bounds the recursion by the graph's
finite atom count (the phantom / cycle rule guarantees this bound is
never the deciding factor). -/
def buildTree (m : Mol) : Nat → List Nat → Nat → BTree × Nat
  | 0, _, _ => (.phantom, 1)
  | fuel + 1, visited, i =>
    let a := m.atoms.getD i default
    let kids := (neighborsOf m i).flatMap (fun p =>
      let real :=
        if visited.contains p.1 then ((BTree.phantom : BTree), 1)
        else buildTree m fuel (i :: visited) p.1
      real :: List.replicate (dupCount p.2) (dupNode m p.1))
    let all := kids ++ List.replicate a.implicitH ((BTree.phantom : BTree), 1)
    (.node a.elem a.isotope ((sortDesc all).map Prod.fst),
     1 + (all.map Prod.snd).sum)

/-- Modelled from the spec (§4.2): the four branches of atom `i` in
input order: one branch per real neighbor (plus duplicates for multiple
bonds), then the implicit hydrogens as minimal phantom branches, padded
with explicit phantoms to reach four total branches. -/
def centerBranches (m : Mol) (i : Nat) : List (BTree × Nat) :=
  let fuel := m.atoms.length + 1
  let a := m.atoms.getD i default
  let real := (neighborsOf m i).flatMap (fun p =>
    buildTree m fuel [i] p.1 :: List.replicate (dupCount p.2) (dupNode m p.1))
  let withH := real ++ List.replicate a.implicitH ((BTree.phantom : BTree), 1)
  withH ++ List.replicate (4 - withH.length) ((BTree.phantom : BTree), 1)

/-- No two branches tie in rank (spec §4.2). -/
def branchesDistinct : List (BTree × Nat) → Bool
  | [] => true
  | x :: xs => xs.all (fun y => cmpTree x y != .eq) && branchesDistinct xs

/-- Modelled from the spec (§4.2 / §4.3): atom `i` is a potential
stereocenter: it passes the enumerator's topological precondition
(member of a ring, or at least three real substituents) and its four
branches have pairwise distinct ranks. -/
def isCandidate (m : Mol) (i : Nat) : Bool :=
  (atomInRing m i || decide (3 ≤ heavyDegree m i)) &&
    branchesDistinct (centerBranches m i)

/-- Number of branch pairs out of descending order: the parity of the
permutation between the input branch ordering and the canonical
priority ordering (spec §4.4). -/
def invCount : List (BTree × Nat) → Nat
  | [] => 0
  | x :: xs => (xs.filter (fun y => cmpTree x y = .lt)).length + invCount xs

/-- Modelled from the spec (§4.4): the Configuration Assigner.  No
mark yields Unspecified; a mark is translated to R/S by comparing its
parity against the parity of the permutation between input order and
priority order (the standard parity-swap rule). -/
def assignLabel (m : Mol) (i : Nat) : String :=
  match (m.atoms.getD i default).mark with
  | .noMark => "?"
  | .parityA => if invCount (centerBranches m i) % 2 = 0 then "R" else "S"
  | .parityB => if invCount (centerBranches m i) % 2 = 0 then "S" else "R"

/-- Modelled from the spec (§4.5): the Center Report Builder: one
ordered sequence of (atom index, label) pairs, ascending atom index,
one entry per potential stereocenter. -/
def fullReport (m : Mol) : List (Nat × String) :=
  (List.range m.atoms.length).filterMap (fun i =>
    if isCandidate m i then some (i, assignLabel m i) else none)

/-- Modelled from the spec (§6): `findStereocenters(graph,
includeUnassigned)`: with `includeUnassigned = true` every candidate is
reported; with `false` the Unspecified entries are filtered out.  The
two results are views over the same report (§4.5, §9). -/
def findStereocenters (m : Mol) (includeUnassigned : Bool) :
    List (Nat × String) :=
  if includeUnassigned then fullReport m
  else (fullReport m).filter (fun e => e.2 != "?")

/-- Modelled from the spec (§4.5): the unassigned-only view: only the
Unspecified entries of the report are retained (the source tests build
this view by filtering the full report on the label "?"). -/
def unassignedCenters (m : Mol) : List (Nat × String) :=
  (fullReport m).filter (fun e => e.2 == "?")

/-- Modelled from the spec (§5): one perception run: a pure call that
returns the report and hands the caller's graph back unmodified (the
graph is read-only to the core, all other state is ephemeral). -/
def runPerception (m : Mol) : List (Nat × String) × Mol :=
  (findStereocenters m true, m)

/-- A plain unmarked atom with atomic number `e` and `h` implicit
hydrogens. -/
def mkAtom (e h : Nat) : Atom := ⟨e, 0, 0, h, .noMark⟩

/-- A single acyclic bond. -/
def mkBond (a b : Nat) : Bond := ⟨a, b, .single, false⟩

/-- Modelled from the spec (§1: parsing is an external collaborator):
the graph the parser produces for "C". -/
def molMethane : Mol := ⟨[mkAtom 6 4], []⟩

/-- Modelled from the spec (§1): the graph the parser produces for
"c1ccccc1" (benzene): six aromatic ring carbons. -/
def molBenzene : Mol :=
  ⟨List.replicate 6 (mkAtom 6 1),
   [⟨0, 1, .aromatic, true⟩, ⟨1, 2, .aromatic, true⟩, ⟨2, 3, .aromatic, true⟩,
    ⟨3, 4, .aromatic, true⟩, ⟨4, 5, .aromatic, true⟩, ⟨5, 0, .aromatic, true⟩]⟩

/-- Modelled from the spec (§1): the graph the parser produces for
"CCC" (propane). -/
def molPropane : Mol :=
  ⟨[mkAtom 6 3, mkAtom 6 2, mkAtom 6 3], [mkBond 0 1, mkBond 1 2]⟩

/-- Modelled from the spec (§1): the graph the parser produces for
"CC(Cl)Br". -/
def molCClBr : Mol :=
  ⟨[mkAtom 6 3, mkAtom 6 1, mkAtom 17 0, mkAtom 35 0],
   [mkBond 0 1, mkBond 1 2, mkBond 1 3]⟩

/-- Modelled from the spec (§1): the graph the parser produces for
"CCC(C)C(Cl)Br". -/
def molTwoCenters : Mol :=
  ⟨[mkAtom 6 3, mkAtom 6 2, mkAtom 6 1, mkAtom 6 3, mkAtom 6 1,
    mkAtom 17 0, mkAtom 35 0],
   [mkBond 0 1, mkBond 1 2, mkBond 2 3, mkBond 2 4, mkBond 4 5, mkBond 4 6]⟩

/-- Modelled from the spec (§1): the graph the parser produces for
"CCC(C(Cl)Br)C(F)I". -/
def molThreeCenters : Mol :=
  ⟨[mkAtom 6 3, mkAtom 6 2, mkAtom 6 1, mkAtom 6 1, mkAtom 17 0,
    mkAtom 35 0, mkAtom 6 1, mkAtom 9 0, mkAtom 53 0],
   [mkBond 0 1, mkBond 1 2, mkBond 2 3, mkBond 3 4, mkBond 3 5,
    mkBond 2 6, mkBond 6 7, mkBond 6 8]⟩

/-- Modelled from the spec (§1): the graph the parser produces for
"[H][C@](F)(I)C(CC)C(Cl)Br": the explicit hydrogen is folded into the
marked carbon's implicit-hydrogen count, atom 0 carries the parity
mark. -/
def molOneMarked : Mol :=
  ⟨[⟨6, 0, 0, 1, .parityA⟩, mkAtom 9 0, mkAtom 53 0, mkAtom 6 1,
    mkAtom 6 2, mkAtom 6 3, mkAtom 6 1, mkAtom 17 0, mkAtom 35 0],
   [mkBond 0 1, mkBond 0 2, mkBond 0 3, mkBond 3 4, mkBond 4 5,
    mkBond 3 6, mkBond 6 7, mkBond 6 8]⟩

/-- Modelled from the spec (§1): the graph the parser produces for
"[H][C@](F)(I)[C@@]([H])(CC)C(Cl)Br": atoms 0 and 3 carry opposite
parity marks. -/
def molTwoMarked : Mol :=
  ⟨[⟨6, 0, 0, 1, .parityA⟩, mkAtom 9 0, mkAtom 53 0, ⟨6, 0, 0, 1, .parityB⟩,
    mkAtom 6 2, mkAtom 6 3, mkAtom 6 1, mkAtom 17 0, mkAtom 35 0],
   [mkBond 0 1, mkBond 0 2, mkBond 0 3, mkBond 3 4, mkBond 4 5,
    mkBond 3 6, mkBond 6 7, mkBond 6 8]⟩

/-- From the source (testMQN / testMQNDetails): the two regression
baselines the MQN tests choose between. -/
inductive MQNBaseline where
  | strict
  | nonStrict
deriving DecidableEq, Repr

/-- From the source (UnitTestDescriptors.py, testMQNDetails lines
78-83): the reference file starts as the strict baseline
(MQNs_regress.pkl) and is replaced by the non-strict one
(MQNs_non_strict_regress.pkl) exactly when Lipinski.NumRotatableBonds
of the probe molecule "CC(C)(C)c1cc(O)c(cc1O)C(C)(C)C" equals 2. -/
def selectMQNRefFile (numRotatableBonds : Nat) : MQNBaseline :=
  if numRotatableBonds = 2 then .nonStrict else .strict

/-- From the source (testMQN, lines 105-108): the 42-element target
array of the branch taken when NumRotatableBonds of the probe molecule
equals 2 (the non-strict rotatable-bond definition). -/
def mqnTgtNonStrict : List Nat :=
  [42917, 274, 870, 621, 135, 1582, 29, 3147, 5463, 6999, 470, 62588,
   19055, 4424, 309, 24061, 17820, 1, 9303, 24146, 16076, 5560, 4262,
   646, 746, 13725, 5430, 2629, 362, 24211, 15939, 292, 41, 20, 1852,
   5642, 31, 9, 1, 2, 3060, 1750]

/-- From the source (testMQN, lines 110-113): the 42-element target
array of the other branch (the strict rotatable-bond definition). -/
def mqnTgtStrict : List Nat :=
  [42917, 274, 870, 621, 135, 1582, 29, 3147, 5463, 6999, 470, 62588,
   19055, 4424, 309, 24061, 17820, 1, 8314, 24146, 16076, 5560, 4262,
   646, 746, 13725, 5430, 2629, 362, 24211, 15939, 292, 41, 20, 1852,
   5642, 31, 9, 1, 2, 3060, 1750]

/-- From the source (testMQN, lines 104-113): which target array the
test compares against, as a function of NumRotatableBonds of the probe
molecule. -/
def selectMQNTgt (numRotatableBonds : Nat) : List Nat :=
  if numRotatableBonds = 2 then mqnTgtNonStrict else mqnTgtStrict

/-- Modelled from the spec (§1: formula construction from
atom/isotope/charge counts is an external collaborator not in the
source tree): the net-charge suffix of a molecular formula; the
magnitude 1 is omitted. -/
def chargeSuffix (q : Int) : String :=
  if q = 0 then ""
  else if 0 < q then "+" ++ (if q = 1 then "" else Nat.repr q.natAbs)
  else "-" ++ (if q = -1 then "" else Nat.repr q.natAbs)

/-- One element-count piece of a formula; the count 1 is omitted. -/
def countPiece (p : String × Nat) : String :=
  p.1 ++ (if p.2 = 1 then "" else Nat.repr p.2)

/-- Lexicographic order on element symbols (alphabetical). -/
def charsLt : List Char → List Char → Bool
  | [], [] => false
  | [], _ :: _ => true
  | _ :: _, [] => false
  | c :: cs, d :: ds =>
    if c.val < d.val then true
    else if d.val < c.val then false
    else charsLt cs ds

/-- Alphabetical order on element symbols. -/
def symbolLt (a b : String) : Bool := charsLt a.toList b.toList

/-- Insert into an alphabetically sorted element-count list. -/
def insertAlpha (x : String × Nat) :
    List (String × Nat) → List (String × Nat)
  | [] => [x]
  | y :: ys =>
    if symbolLt y.1 x.1 then y :: insertAlpha x ys else x :: y :: ys

/-- Sort an element-count list alphabetically by symbol. -/
def sortAlpha : List (String × Nat) → List (String × Nat)
  | [] => []
  | x :: xs => insertAlpha x (sortAlpha xs)

/-- Modelled from the spec: Hill order of element counts: when carbon
is present, carbon first, hydrogen second, the rest alphabetical;
otherwise every element alphabetical. -/
def hillOrder (counts : List (String × Nat)) : List (String × Nat) :=
  if counts.any (fun p => p.1 = "C") then
    counts.filter (fun p => p.1 == "C") ++
      counts.filter (fun p => p.1 == "H") ++
      sortAlpha (counts.filter (fun p => p.1 != "C" && p.1 != "H"))
  else sortAlpha counts

/-- Modelled from the spec: `CalcMolFormula`, absent from the source
tree (§1 scopes molecular-formula string construction out as an
external collaborator): Hill-order element counts followed by the
net-charge suffix. -/
def CalcMolFormula (counts : List (String × Nat)) (charge : Int) :
    String :=
  String.join ((hillOrder counts).map countPiece) ++ chargeSuffix charge

/-- From the source (testMolFormula, lines 59-72), with each SMILES
replaced by the element counts and net charge its parse carries
(modelled from the spec §1: parsing is the external collaborator):
every row pairs a parsed molecule with the formula string the source
table expects. -/
def molFormulaTable : List ((List (String × Nat) × Int) × String) :=
  [(([("N", 1), ("H", 4)], 1), "H4N+"),
   (([("C", 6), ("H", 6)], 0), "C6H6"),
   (([("C", 6), ("H", 12)], 0), "C6H12"),
   (([("C", 6), ("H", 6), ("O", 1)], 0), "C6H6O"),
   (([("C", 6), ("H", 12), ("O", 1)], 0), "C6H12O"),
   (([("C", 6), ("H", 10), ("O", 1)], 0), "C6H10O"),
   (([("N", 1), ("H", 2), ("Na", 1)], 0), "H2NNa"),
   (([("C", 2)], -2), "C2-2"),
   (([("H", 1)], 0), "H"),
   (([("H", 1)], -1), "H-"),
   (([("H", 1)], -1), "H-"),
   (([("C", 1), ("H", 2)], 0), "CH2"),
   (([("He", 1)], -2), "He-2"),
   (([("U", 1)], 3), "U+3")]

/-- A filterMap over a list on which the function never fires is
empty. -/
theorem filterMap_none {α β : Type} (f : α → Option β) :
    ∀ l : List α, (∀ a, a ∈ l → f a = none) → l.filterMap f = []
  | [], _ => rfl
  | x :: xs, h => by
    rw [List.filterMap_cons, h x (List.mem_cons_self x xs)]
    exact filterMap_none f xs (fun a ha => h a (List.mem_cons_of_mem x ha))

/-- C1 counterexample: for the molecule parsed from
"[H][C@](F)(I)C(CC)C(Cl)Br" the includeUnassigned view does not have 2
entries (it has 3, as the source test at line 127 also asserts), so the
claim as stated is false at this input. -/
theorem oneMarked_full_view_not_two :
    ¬ ((findStereocenters molOneMarked false).length = 1 ∧
       (findStereocenters molOneMarked true).length = 2) := by
  decide

/-- C1 (amended): for the molecule parsed from
"[H][C@](F)(I)C(CC)C(Cl)Br", the assigned-only view has exactly 1
entry and the includeUnassigned view has exactly 3 entries, one
labeled "R" or "S" and two labeled "?". -/
theorem oneMarked_views :
    (findStereocenters molOneMarked false).length = 1 ∧
    (findStereocenters molOneMarked true).length = 3 ∧
    ((findStereocenters molOneMarked true).filter
      (fun e => e.2 == "R" || e.2 == "S")).length = 1 ∧
    ((findStereocenters molOneMarked true).filter
      (fun e => e.2 == "?")).length = 2 := by
  decide

/-- C2: for every graph the assigned-only view equals the
includeUnassigned view with the "?" entries removed and the
unassigned-only view equals exactly the "?" entries; and for each of
the seven test molecules, assigned entries plus "?" entries equal the
includeUnassigned entries. -/
theorem stereocenter_views_consistent :
    (∀ m : Mol,
      findStereocenters m false =
        (findStereocenters m true).filter (fun e => e.2 != "?") ∧
      unassignedCenters m =
        (findStereocenters m true).filter (fun e => e.2 == "?")) ∧
    (findStereocenters molMethane false).length +
      (unassignedCenters molMethane).length =
      (findStereocenters molMethane true).length ∧
    (findStereocenters molBenzene false).length +
      (unassignedCenters molBenzene).length =
      (findStereocenters molBenzene true).length ∧
    (findStereocenters molCClBr false).length +
      (unassignedCenters molCClBr).length =
      (findStereocenters molCClBr true).length ∧
    (findStereocenters molTwoCenters false).length +
      (unassignedCenters molTwoCenters).length =
      (findStereocenters molTwoCenters true).length ∧
    (findStereocenters molThreeCenters false).length +
      (unassignedCenters molThreeCenters).length =
      (findStereocenters molThreeCenters true).length ∧
    (findStereocenters molOneMarked false).length +
      (unassignedCenters molOneMarked).length =
      (findStereocenters molOneMarked true).length ∧
    (findStereocenters molTwoMarked false).length +
      (unassignedCenters molTwoMarked).length =
      (findStereocenters molTwoMarked true).length := by
  refine ⟨fun m => ⟨rfl, rfl⟩, ?_, ?_, ?_, ?_, ?_, ?_, ?_⟩ <;> decide

/-- C3: for the molecule parsed from
"[H][C@](F)(I)[C@@]([H])(CC)C(Cl)Br", the assigned-only view has
exactly 2 entries, each labeled "R" or "S", never "?". -/
theorem twoMarked_assigned_view :
    (findStereocenters molTwoMarked false).length = 2 ∧
    (findStereocenters molTwoMarked false).all
      (fun e => e.2 == "R" || e.2 == "S") = true ∧
    (findStereocenters molTwoMarked false).all
      (fun e => e.2 != "?") = true := by
  decide

/-- C4: for the molecule parsed from "CC(Cl)Br", findStereocenters
returns exactly one candidate, Unspecified, with includeUnassigned,
and the assigned-only view is empty. -/
theorem cclbr_views :
    findStereocenters molCClBr true = [(1, "?")] ∧
    findStereocenters molCClBr false = [] := by
  decide

/-- C5: a graph none of whose atoms is a potential stereocenter gets
the empty report even with includeUnassigned. -/
theorem no_capable_atoms_empty_report (m : Mol)
    (h : ∀ i, i < m.atoms.length → isCandidate m i = false) :
    findStereocenters m true = [] := by
  show fullReport m = []
  exact filterMap_none _ _ (fun i hi => by
    rw [List.mem_range] at hi
    simp [h i hi])

/-- C5 witness: the molecules parsed from "C", "c1ccccc1" and "CCC"
have no stereo-capable atom, and their reports are empty. -/
theorem no_capable_atoms_empty_report_witness :
    findStereocenters molMethane true = [] ∧
    findStereocenters molBenzene true = [] ∧
    findStereocenters molPropane true = [] :=
  ⟨no_capable_atoms_empty_report molMethane (by decide),
   no_capable_atoms_empty_report molBenzene (by decide),
   no_capable_atoms_empty_report molPropane (by decide)⟩

/-- C6: perception is deterministic and leaves the graph unchanged: a
run hands the graph back as it was, and a second run on that graph
yields the identical ordered report. -/
theorem perception_deterministic (m : Mol) :
    (runPerception m).2 = m ∧
    (runPerception ((runPerception m).2)).1 = (runPerception m).1 :=
  ⟨rfl, rfl⟩

/-- C7: the MQN regression tests use the non-strict baseline (refFile2
in testMQNDetails, the first target array in testMQN) if and only if
NumRotatableBonds of the probe molecule equals 2. -/
theorem mqn_baseline_selection (n : Nat) :
    (selectMQNRefFile n = MQNBaseline.nonStrict ↔ n = 2) ∧
    (selectMQNTgt n = mqnTgtNonStrict ↔ n = 2) := by
  have hne : mqnTgtStrict ≠ mqnTgtNonStrict := by decide
  by_cases h : n = 2
  · subst h
    simp [selectMQNRefFile, selectMQNTgt]
  · simp [selectMQNRefFile, selectMQNTgt, h, hne]

/-- C8: CalcMolFormula returns exactly the expected string of every
row of the source's molecular-formula table. -/
theorem calcMolFormula_matches_table :
    molFormulaTable.all
      (fun r => CalcMolFormula r.1.1 r.1.2 == r.2) = true := by
  decide

/-- C10: the two 42-element MQN target arrays are equal at every index
except 18, where the non-strict target is 9303 and the strict target
is 8314. -/
theorem mqn_targets_differ_only_at_index_18 :
    mqnTgtNonStrict.length = 42 ∧ mqnTgtStrict.length = 42 ∧
    mqnTgtNonStrict.getD 18 0 = 9303 ∧ mqnTgtStrict.getD 18 0 = 8314 ∧
    mqnTgtNonStrict.set 18 8314 = mqnTgtStrict ∧
    (∀ i, i < 42 → i ≠ 18 →
      mqnTgtNonStrict.getD i 0 = mqnTgtStrict.getD i 0) := by
  decide
